import Mathlib

/-!
Verification development for the Architect 3D Home Modeler Flask application.

Python strings are embedded as `List Char` (a Python `str` is a sequence of
characters); Python dicts as association lists in insertion order; the
`renderings` SQL table as a `List Rendering`; external collaborators (the
image-generation provider, SMTP transport, the filesystem) as explicit
parameters or recorded effects.  Each embedded definition mirrors one Python
function of `app.py` (and, where noted, of
`architect_3_d_home_modeler_flask_app_app.py`).
-/

set_option maxRecDepth 4000

abbrev Str := List Char

/-- Embedding of Python `str.lower()` (ASCII range, which covers every
character the application's fixed strings use). -/
def lower (s : Str) : Str := s.map Char.toLower

/-- Embedding of the Python substring test `pat in s`: scan left to right for
a position where `pat` is a prefix. -/
def containsSub (pat : Str) : Str → Bool
  | [] => pat.isPrefixOf []
  | c :: rest => pat.isPrefixOf (c :: rest) || containsSub pat rest

def poolStr : Str := "pool".toList

/-- Embedding of Python `description.replace("pool", "")`: remove
non-overlapping occurrences of `"pool"` scanning left to right. -/
def removePool : Str → Str
  | 'p' :: 'o' :: 'o' :: 'l' :: rest => removePool rest
  | c :: rest => c :: removePool rest
  | [] => []

/-- Embedding of Python `s.split(", ")`: split on the two-character separator,
leftmost-first, non-overlapping. -/
def splitCS : Str → List Str
  | [] => [[]]
  | ',' :: ' ' :: rest => [] :: splitCS rest
  | c :: rest =>
    match splitCS rest with
    | [] => [[c]]
    | h :: t => (c :: h) :: t

/-- Embedding of Python `", ".join(parts)`. -/
def joinCS : List Str → Str
  | [] => []
  | [s] => s
  | s :: rest => s ++ (", ").toList ++ joinCS rest

/-- Embedding of Python `s.strip()`: drop whitespace from both ends. -/
def strip (s : Str) : Str :=
  ((s.dropWhile Char.isWhitespace).reverse.dropWhile Char.isWhitespace).reverse

def noneStr : Str := "None".toList

def feStr : Str := "Front Exterior".toList

def beStr : Str := "Back Exterior".toList

/-- Truthiness-plus-sentinel test from `build_prompt`'s comprehension guard
`if v and v != "None"` (a `None` or empty value is falsy). -/
def optTruthy : Option Str → Bool
  | none => false
  | some v => if v = [] then false else if v = noneStr then false else true

/-- The `"Name: Value"` segments of `build_prompt`'s selections string:
`[f"{k}: {v}" for k, v in options_map.items() if v and v != "None"]`. -/
def selectionSegments (options_map : List (Str × Option Str)) : List Str :=
  (options_map.filter (fun kv => optTruthy kv.2)).map
    (fun kv => kv.1 ++ (": ").toList ++ kv.2.getD [])

/-- The transformation `build_prompt` applies to the free-text description when
the subcategory is `"Front Exterior"` (`app.py` lines 330-331):
`if "pool" in description.lower(): description = description.replace("pool", "")`. -/
def frontDescription (description : Str) : Str :=
  if containsSub poolStr (lower description) = true then removePool description
  else description

/-- The transformation `build_prompt` applies to the joined selections string
when the subcategory is `"Front Exterior"` (`app.py` lines 332-333):
`", ".join([s for s in selections.split(", ") if "pool" not in s.lower()])`. -/
def frontSelections (selections : Str) : Str :=
  joinCS ((splitCS selections).filter (fun s => !(containsSub poolStr (lower s))))

/-- Embedding of `build_prompt(subcategory, options_map, description,
plan_uploaded)` from `app.py` lines 325-342. -/
def build_prompt (subcategory : Str) (options_map : List (Str × Option Str))
    (description : Str) (plan_uploaded : Bool) : Str :=
  let selections := joinCS (selectionSegments options_map)
  let plan_hint :=
    if plan_uploaded then ("Consider the uploaded architectural plan as a guide. ").toList
    else ([] : Str)
  let description :=
    if subcategory = feStr then frontDescription description else description
  let selections :=
    if subcategory = feStr then frontSelections selections else selections
  ("High-quality photorealistic ").toList ++ subcategory
    ++ (" rendering for a residential home. ").toList
    ++ plan_hint
    ++ ("Design intent: ").toList
    ++ (if strip description = [] then
          ("Client unspecified style; pick tasteful contemporary.").toList
        else strip description)
    ++ (" Apply choices -> ").toList
    ++ (if selections = [] then ("designer’s choice with cohesive style").toList
        else selections)
    ++ (". Balanced composition, realistic lighting, 4k detail, magazine quality.").toList

/-! ### Data model: the renderings table of app.py -/

/-- Shorthand for string literals in the embedding. -/
def sl (s : String) : Str := s.toList

/-- One row of the `renderings` table of `app.py` (schema lines 125-139).
`options_json` holds the decoded option mapping that `json.dumps` serializes
into the TEXT column (a value may be `none`, mirroring JSON `null`);
`liked`/`favorited` are the INTEGER flag columns (schema default 0);
`user_id` is the nullable owner column. -/
structure Rendering where
  id : Nat
  user_id : Option Nat
  category : Str
  subcategory : Str
  options_json : List (Str × Option Str)
  prompt : Str
  image_path : Str
  liked : Int
  favorited : Int
  created_at : Str
deriving DecidableEq

/-- AUTOINCREMENT identity assigned to a newly inserted row. -/
def nextId (db : List Rendering) : Nat :=
  (db.map (fun r => r.id)).foldr max 0 + 1

/-- The caller-scoped row set used by every bulk query of `app.py`:
`WHERE id IN (ids) AND user_id = ?`. -/
def scopedRows (uid : Nat) (ids : List Nat) (db : List Rendering) : List Rendering :=
  db.filter (fun r => decide (r.id ∈ ids ∧ r.user_id = some uid))

/-- The `OPTIONS` catalog of `app.py` (lines 172-304), as the mapping from
subcategory to its option names in declaration order.  The per-option value
lists are elided: no embedded route ever consults them (`generate_room` and
`modify_rendering` iterate only over `OPTIONS[subcategory].keys()`). -/
def OPTIONS : List (Str × List Str) := [
  (sl "Front Exterior", [sl "Siding Material", sl "Roof Style", sl "Window Trim Color",
    sl "Landscaping", sl "Vehicle", sl "Driveway Material", sl "Driveway Shape",
    sl "Gate Style", sl "Garage Style"]),
  (sl "Back Exterior", [sl "Siding Material", sl "Roof Style", sl "Window Trim Color",
    sl "Landscaping", sl "Swimming Pool", sl "Paradise Grills", sl "Basketball Court",
    sl "Water Fountain", sl "Putting Green"]),
  (sl "Living Room", [sl "Flooring", sl "Wall Color", sl "Lighting", sl "Furniture Style",
    sl "Chairs", sl "Coffee Tables", sl "Wine Storage", sl "Fireplace", sl "Door Style"]),
  (sl "Kitchen", [sl "Flooring", sl "Wall Color", sl "Lighting", sl "Cabinet Style",
    sl "Countertops", sl "Appliances", sl "Backsplash", sl "Sink", sl "Island Lights"]),
  (sl "Home Office", [sl "Flooring", sl "Wall Color", sl "Lighting", sl "Desk Style",
    sl "Office Chair", sl "Storage"]),
  (sl "Primary Bedroom", [sl "Flooring", sl "Wall Color", sl "Lighting", sl "Bed Style",
    sl "Furniture Style", sl "Closet Design", sl "Ceiling Fan"]),
  (sl "Primary Bathroom", [sl "Flooring", sl "Wall Color", sl "Lighting", sl "Vanity Style",
    sl "Shower or Tub", sl "Tile Style", sl "Bathroom Sink", sl "Mirror Style", sl "Balcony"]),
  (sl "Other Bedroom", [sl "Flooring", sl "Wall Color", sl "Lighting", sl "Bed Style",
    sl "Furniture Style", sl "Ceiling Fan", sl "Balcony"]),
  (sl "Half Bath", [sl "Flooring", sl "Wall Color", sl "Lighting", sl "Vanity Style",
    sl "Tile Style", sl "Mirror Style"]),
  (sl "Basement: Game Room", [sl "Flooring", sl "Wall Color", sl "Lighting", sl "Pool Table",
    sl "Wine Bar", sl "Arcade Games", sl "Other Table Games"]),
  (sl "Basement: Gym", [sl "Flooring", sl "Wall Color", sl "Lighting", sl "Equipment",
    sl "Gym Station", sl "Steam Room"]),
  (sl "Basement: Theater Room", [sl "Flooring", sl "Wall Color", sl "Lighting",
    sl "Wall Treatment", sl "Seating", sl "Popcorn Machine", sl "Sound System",
    sl "Screen Type", sl "Movie Posters", sl "Show Movie"]),
  (sl "Basement: Hallway", [sl "Flooring", sl "Wall Color", sl "Lighting", sl "Stairs"]),
  (sl "Family Room", [sl "Flooring", sl "Wall Color", sl "Lighting", sl "Furniture Style",
    sl "Chairs"])]

/-- The subcategory names recognized by the catalog (`subcategory in OPTIONS`). -/
def catalogKeys : List Str := OPTIONS.map (fun p => p.1)

/-- The option names of a subcategory (`OPTIONS[subcategory].keys()`). -/
def optionNames (subcat : Str) : List Str :=
  ((OPTIONS.find? (fun p => decide (p.1 = subcat))).map (fun p => p.2)).getD []

/-- Embedding of `request.form.get(name)` for the posted form, as lookup in an
association list (first binding wins, `None` when absent). -/
def formGet (form : List (Str × Str)) (name : Str) : Option Str :=
  (form.find? (fun p => decide (p.1 = name))).map (fun p => p.2)

/-! ### The /generate route (paired exterior flow) -/

structure GenerateResult where
  db : List Rendering
  flash_cat : Str
  redirect_to : Str
deriving DecidableEq

/-- Embedding of the `/generate` route (`app.py` lines 418-459).  The two
`generate_image_via_openai` calls are the external boundary; their outcomes
arrive as `Except` values (error message, or the saved artifact's relative
path — artifact persistence happens inside that call, so its failure is the
same `error` outcome).  The loop over `[("Front Exterior", front_prompt),
("Back Exterior", back_prompt)]` is unrolled; a failure flashes the error and
redirects to `index` before any `INSERT` runs; both rows are inserted only
when both succeed. -/
def generate (description : Str) (plan_uploaded : Bool)
    (frontRes backRes : Except Str Str) (uid : Nat) (db : List Rendering)
    (now : Str) : GenerateResult :=
  let front_prompt := build_prompt feStr [] description plan_uploaded
  let back_prompt := build_prompt beStr [] description plan_uploaded
  match frontRes with
  | .error _ => { db := db, flash_cat := sl "danger", redirect_to := sl "index" }
  | .ok front_path =>
    match backRes with
    | .error _ => { db := db, flash_cat := sl "danger", redirect_to := sl "index" }
    | .ok back_path =>
      let db1 := db ++ [⟨nextId db, some uid, sl "EXTERIOR", feStr, [],
        front_prompt, front_path, 0, 0, now⟩]
      let db2 := db1 ++ [⟨nextId db1, some uid, sl "EXTERIOR", beStr, [],
        back_prompt, back_path, 0, 0, now⟩]
      { db := db2, flash_cat := sl "success", redirect_to := sl "gallery" }

/-! ### The /generate_room route -/

structure RoomResult where
  db : List Rendering
  status : Nat
  error : Option Str
  new_id : Option Nat
deriving DecidableEq

/-- Embedding of the `/generate_room` route (`app.py` lines 462-498): options
are collected from the form only when the subcategory is a catalog key; the
prompt is built; on generation failure a 500 error is returned with no insert;
on success one `ROOM` row is inserted and its id returned. -/
def generate_room (subcategory : Str) (description : Str) (plan_uploaded : Bool)
    (form : List (Str × Str)) (genRes : Except Str Str) (uid : Nat)
    (db : List Rendering) (now : Str) : RoomResult :=
  let selected : List (Str × Option Str) :=
    if subcategory ∈ catalogKeys then
      (optionNames subcategory).map (fun n => (n, formGet form n))
    else []
  let prompt := build_prompt subcategory selected description plan_uploaded
  match genRes with
  | .error e => { db := db, status := 500, error := some e, new_id := none }
  | .ok rel_path =>
    { db := db ++ [⟨nextId db, some uid, sl "ROOM", subcategory, selected,
        prompt, rel_path, 0, 0, now⟩],
      status := 200, error := none, new_id := some (nextId db) }

/-! ### The /gallery and /slideshow routes -/

/-- The favorited count computed by `/gallery` over the caller's renderings
(`app.py` line 520: `sum(1 for r in items if r["favorited"])` where `items`
is `SELECT * ... WHERE user_id = ?`). -/
def gallery_fav_count (uid : Nat) (db : List Rendering) : Nat :=
  ((db.filter (fun r => decide (r.user_id = some uid))).filter
    (fun r => decide (r.favorited ≠ 0))).length

/-- The `show_slideshow` flag passed to the gallery template
(`app.py` line 523: `fav_count >= 2`). -/
def gallery_show_slideshow (uid : Nat) (db : List Rendering) : Bool :=
  decide (2 ≤ gallery_fav_count uid db)

inductive SlideshowResult
  | redirectGallery
  | view (items : List Rendering)
deriving DecidableEq

/-- Embedding of the `/slideshow` route (`app.py` lines 611-623): the caller's
rows with `favorited = 1`; fewer than two redirect back to the gallery.  (The
`ORDER BY created_at DESC` ordering of the listing is not modelled; no claim
concerns it.) -/
def slideshow (uid : Nat) (db : List Rendering) : SlideshowResult :=
  let items := db.filter (fun r => decide (r.favorited = 1 ∧ r.user_id = some uid))
  if items.length < 2 then SlideshowResult.redirectGallery else SlideshowResult.view items

/-! ### The /bulk_action route -/

/-- The two flag columns a like/favorite bulk action may update. -/
inductive FieldKind
  | liked
  | favorited
deriving DecidableEq

def fieldGet : FieldKind → Rendering → Int
  | .liked, r => r.liked
  | .favorited, r => r.favorited

def fieldSet : FieldKind → Int → Rendering → Rendering
  | .liked, v, r => { r with liked := v }
  | .favorited, v, r => { r with favorited := v }

/-- `field = "liked" if action == "like" else "favorited"` (`app.py` line 555). -/
def toggledField (action : Str) : FieldKind :=
  if action = sl "like" then FieldKind.liked else FieldKind.favorited

/-- One `UPDATE renderings SET {field} = ? WHERE id = ?` statement applied to
one row. -/
def updRow (f : FieldKind) (r : Rendering) (vu : Int × Nat) : Rendering :=
  if r.id = vu.2 then fieldSet f vu.1 r else r

/-- Embedding of `cur.executemany(f"UPDATE renderings SET {field} = ? WHERE
id = ?", updates)`: apply each `(new_value, id)` statement in order; each
statement updates every row whose `id` matches. -/
def applyUpdates (f : FieldKind) (db : List Rendering) (updates : List (Int × Nat)) :
    List Rendering :=
  updates.foldl (fun d vu => d.map (fun r => updRow f r vu)) db

inductive BAErr
  | noEmailAddr
  | onlyLikedEmail
  | onlyLikedDownload
  | emailFailed
  | unknownAction
deriving DecidableEq

/-- The success messages of `/bulk_action`, with the interpolated count kept
structured (`f"Deleted {len(ids)} rendering(s)."` etc.). -/
inductive BAMsg
  | deleted (n : Nat)
  | updated (n : Nat)
  | emailedN (n : Nat) (dest : Str)
deriving DecidableEq

structure BAResult where
  db : List Rendering
  status : Nat
  error : Option BAErr := none
  message : Option BAMsg := none
  emailed : Option (Str × List Str) := none
  download_urls : Option (List Str) := none
  removed_files : List Str := []
deriving DecidableEq

def urlForStatic (p : Str) : Str := sl "/static/" ++ p

/-- The image paths of the liked subset of the caller-scoped requested rows —
the rows over which the email and download branches operate
(`[r["image_path"] for r in rows if r["liked"]]`). -/
def likedPaths (uid : Nat) (ids : List Nat) (db : List Rendering) : List Str :=
  ((scopedRows uid ids db).filter (fun r => decide (r.liked ≠ 0))).map
    (fun r => r.image_path)

/-- Embedding of the `/bulk_action` route (`app.py` lines 527-608) for a
parsed non-empty id list.  `to_email` is the posted recipient (absent or
empty is falsy); `emailOk` is the outcome of the SMTP boundary; the
best-effort artifact unlinking of the delete branch is recorded in
`removed_files`; `emailed` records the recipient/attachment list handed to
`send_email_with_images`. -/
def bulk_action (action : Str) (ids : List Nat) (to_email : Option Str)
    (emailOk : Bool) (uid : Nat) (db : List Rendering) : BAResult :=
  if action = sl "delete" then
    let paths := (scopedRows uid ids db).map (fun r => r.image_path)
    { db := db.filter (fun r => !(decide (r.id ∈ ids ∧ r.user_id = some uid))),
      status := 200, message := some (BAMsg.deleted ids.length),
      removed_files := paths }
  else if action = sl "like" ∨ action = sl "favorite" then
    let f := toggledField action
    let sel := scopedRows uid ids db
    let updates := sel.map (fun r => (1 - fieldGet f r, r.id))
    { db := applyUpdates f db updates, status := 200,
      message := some (BAMsg.updated ids.length) }
  else if action = sl "email" then
    match to_email with
    | none => { db := db, status := 400, error := some BAErr.noEmailAddr }
    | some addr =>
      if addr = [] then { db := db, status := 400, error := some BAErr.noEmailAddr }
      else
        let send_paths := likedPaths uid ids db
        if send_paths = [] then
          { db := db, status := 400, error := some BAErr.onlyLikedEmail }
        else if emailOk then
          { db := db, status := 200,
            message := some (BAMsg.emailedN send_paths.length addr),
            emailed := some (addr, send_paths) }
        else
          { db := db, status := 500, error := some BAErr.emailFailed,
            emailed := some (addr, send_paths) }
  else if action = sl "download" then
    let liked_paths := likedPaths uid ids db
    if liked_paths = [] then
      { db := db, status := 400, error := some BAErr.onlyLikedDownload }
    else
      { db := db, status := 200,
        download_urls := some (liked_paths.map urlForStatic) }
  else { db := db, status := 400, error := some BAErr.unknownAction }

/-! ### The /modify_rendering route -/

/-- The `fetchone()` of `SELECT * FROM renderings WHERE id=? AND user_id=?`. -/
def findRendering (db : List Rendering) (rid uid : Nat) : Option Rendering :=
  db.find? (fun r => decide (r.id = rid ∧ r.user_id = some uid))

/-- Python `a or b` over form/option values (`None` and `""` are falsy). -/
def pyOr (a b : Option Str) : Option Str :=
  match a with
  | some v => if v = [] then b else some v
  | none => b

/-- `original_options.get(name)` over the decoded options mapping (absent and
JSON-null both give `None`). -/
def dictGet (d : List (Str × Option Str)) (name : Str) : Option Str :=
  match d.find? (fun p => decide (p.1 = name)) with
  | some p => p.2
  | none => none

structure ModifyResult where
  db : List Rendering
  status : Nat
  error : Option Str := none
  new_id : Option Nat := none
deriving DecidableEq

/-- Embedding of the `/modify_rendering/<rid>` route (`app.py` lines 625-667):
look up the caller's rendering; missing gives 404; otherwise rebuild the
options from the form with fallback to the stored originals, regenerate, and
on success insert one new row (the original row is never updated). -/
def modify_rendering (rid uid : Nat) (description : Str) (form : List (Str × Str))
    (genRes : Except Str Str) (db : List Rendering) (now : Str) : ModifyResult :=
  match findRendering db rid uid with
  | none => { db := db, status := 404, error := some (sl "Rendering not found.") }
  | some row =>
    let subcategory := row.subcategory
    let original_options := row.options_json
    let selected : List (Str × Option Str) :=
      if subcategory ∈ catalogKeys then
        (optionNames subcategory).map
          (fun n => (n, pyOr (formGet form n) (dictGet original_options n)))
      else []
    let prompt := build_prompt subcategory selected description false
    match genRes with
    | .error e => { db := db, status := 500, error := some e }
    | .ok rel_path =>
      { db := db ++ [⟨nextId db, row.user_id, row.category, subcategory, selected,
          prompt, rel_path, 0, 0, now⟩],
        status := 200, new_id := some (nextId db) }

/-! ### The second revision: architect_3_d_home_modeler_flask_app_app.py -/

/-- One row of the `renderings` table of
`architect_3_d_home_modeler_flask_app_app.py` (schema lines 530-544; the
favorite column there is named `favorite`). -/
structure Rendering2 where
  id : Nat
  project_id : Nat
  user_id : Option Nat
  room_key : Str
  title : Str
  options_json : Str
  image_filename : Str
  liked : Int
  favorite : Int
  created_at : Str
deriving DecidableEq

/-- The scope every bulk query of that revision uses:
`WHERE project_id=? AND room_key=? AND id IN (...)` (no user filter). -/
def scoped2 (pid : Nat) (rk : Str) (ids : List Nat) (r : Rendering2) : Prop :=
  r.project_id = pid ∧ r.room_key = rk ∧ r.id ∈ ids

instance (pid : Nat) (rk : Str) (ids : List Nat) (r : Rendering2) :
    Decidable (scoped2 pid rk ids r) := by unfold scoped2; infer_instance

inductive B2Flash
  | noSelection
  | deletedOk
  | marked (field : Str)
  | onlyLikedDownload
  | onlyLikedEmail
  | recipientRequired
  | emailSent
  | emailFailed
  | unknownAction
deriving DecidableEq

structure B2Result where
  db : List Rendering2
  flash : Option B2Flash := none
  zipped : Option (List Str) := none
  emailed : Option (Str × List Str) := none
deriving DecidableEq

def setField2 (field : Str) (v : Int) (r : Rendering2) : Rendering2 :=
  if field = sl "liked" then { r with liked := v } else { r with favorite := v }

/-- The liked filenames of the project/room-scoped requested rows — the rows
the download and email branches of that revision operate over
(`[r['image_filename'] for r in rows if r['liked']]`). -/
def likedFiles2 (pid : Nat) (rk : Str) (ids : List Nat) (db : List Rendering2) :
    List Str :=
  ((db.filter (fun r => decide (scoped2 pid rk ids r))).filter
    (fun r => decide (r.liked ≠ 0))).map (fun r => r.image_filename)

/-- Embedding of `bulk_action(project_id, room_key)` of
`architect_3_d_home_modeler_flask_app_app.py` (lines 949-1017).  `recipient`
is the posted address (empty is falsy); `emailOk` the SMTP boundary outcome;
`zipped` records the liked filenames packed into the returned zip; `emailed`
the recipient/attachment list handed to `send_email_with_attachments`. -/
def bulk_action2 (action : Str) (pid : Nat) (rk : Str) (ids : List Nat)
    (recipient : Str) (emailOk : Bool) (db : List Rendering2) : B2Result :=
  if ids = [] then { db := db, flash := some B2Flash.noSelection }
  else if action = sl "delete" then
    { db := db.filter (fun r => !(decide (scoped2 pid rk ids r))),
      flash := some B2Flash.deletedOk }
  else if action = sl "like" ∨ action = sl "favorite" then
    let field := if action = sl "like" then sl "liked" else sl "favorite"
    { db := db.map (fun r => if scoped2 pid rk ids r then setField2 field 1 r else r),
      flash := some (B2Flash.marked field) }
  else if action = sl "download" then
    let files := likedFiles2 pid rk ids db
    if files = [] then { db := db, flash := some B2Flash.onlyLikedDownload }
    else { db := db, zipped := some files }
  else if action = sl "email" then
    if recipient = [] then { db := db, flash := some B2Flash.recipientRequired }
    else
      let files := likedFiles2 pid rk ids db
      if files = [] then { db := db, flash := some B2Flash.onlyLikedEmail }
      else if emailOk then
        { db := db, flash := some B2Flash.emailSent, emailed := some (recipient, files) }
      else
        { db := db, flash := some B2Flash.emailFailed, emailed := some (recipient, files) }
  else { db := db, flash := some B2Flash.unknownAction }

/-! ### Substring machinery for the pool-exclusion analysis -/

theorem poolStr_chars : poolStr = ['p', 'o', 'o', 'l'] := rfl

theorem containsSub_iff (pat s : Str) : containsSub pat s = true ↔ pat <:+: s := by
  induction s with
  | nil => simp [containsSub, List.isPrefixOf_iff_prefix]
  | cons c rest ih =>
    simp [containsSub, List.isPrefixOf_iff_prefix, ih, List.infix_cons_iff]

theorem lower_append (a b : Str) : lower (a ++ b) = lower a ++ lower b :=
  List.map_append _ _ _

/-- Decompose a prefix of an append. -/
theorem pref_split {p a b : Str} (h : p <+: a ++ b) :
    p <+: a ∨ ∃ b₁, b₁ <+: b ∧ p = a ++ b₁ := by
  induction a generalizing p with
  | nil => exact Or.inr ⟨p, by simpa using h, rfl⟩
  | cons c a ih =>
    match p, h with
    | [], _ => exact Or.inl (List.nil_prefix)
    | q :: p', hp =>
      obtain ⟨hq, hp'⟩ := List.cons_prefix_cons.mp hp
      subst hq
      rcases ih hp' with h1 | ⟨b₁, hb₁, rfl⟩
      · exact Or.inl (List.cons_prefix_cons.mpr ⟨rfl, h1⟩)
      · exact Or.inr ⟨b₁, hb₁, rfl⟩

/-- Decompose an infix of an append: it lies in the left part, in the right
part, or spans the junction. -/
theorem infix_split {p a b : Str} (h : p <:+: a ++ b) :
    p <:+: a ∨ p <:+: b ∨
      ∃ a₂ b₁, a₂ ≠ [] ∧ b₁ ≠ [] ∧ a₂ <:+ a ∧ b₁ <+: b ∧ p = a₂ ++ b₁ := by
  induction a with
  | nil => simp only [List.nil_append] at h; exact Or.inr (Or.inl h)
  | cons c a ih =>
    rw [List.cons_append] at h
    rcases List.infix_cons_iff.mp h with hpre | hinf
    · rw [← List.cons_append] at hpre
      rcases pref_split hpre with h1 | ⟨b₁, hb₁, rfl⟩
      · exact Or.inl h1.isInfix
      · cases b₁ with
        | nil => exact Or.inl (by rw [List.append_nil])
        | cons x b₁ =>
          exact Or.inr (Or.inr ⟨c :: a, x :: b₁, by simp, by simp,
            List.suffix_refl _, hb₁, rfl⟩)
    · rcases ih hinf with h1 | h2 | ⟨a₂, b₁, h3, h4, h5, h6, rfl⟩
      · exact Or.inl (h1.trans (List.suffix_cons c a).isInfix)
      · exact Or.inr (Or.inl h2)
      · exact Or.inr (Or.inr ⟨a₂, b₁, h3, h4, h5.trans (List.suffix_cons c a), h6, rfl⟩)

/-- A two-sided split of the four-character word `"pool"` pins down the last
character of the left piece and the first character of the right piece. -/
theorem pool_split {a₂ b₁ : Str} (ha : a₂ ≠ []) (hb : b₁ ≠ [])
    (heq : a₂ ++ b₁ = poolStr) :
    (a₂.getLast? = some 'p' ∨ a₂.getLast? = some 'o') ∧
      (b₁.head? = some 'o' ∨ b₁.head? = some 'l') := by
  rw [poolStr_chars] at heq
  match a₂, ha with
  | [x1], _ =>
    obtain ⟨rfl, rfl⟩ : x1 = 'p' ∧ b₁ = ['o', 'o', 'l'] := by
      simpa using heq
    simp
  | [x1, x2], _ =>
    obtain ⟨rfl, rfl, rfl⟩ : x1 = 'p' ∧ x2 = 'o' ∧ b₁ = ['o', 'l'] := by
      simpa using heq
    simp
  | [x1, x2, x3], _ =>
    obtain ⟨rfl, rfl, rfl, rfl⟩ : x1 = 'p' ∧ x2 = 'o' ∧ x3 = 'o' ∧ b₁ = ['l'] := by
      simpa using heq
    simp
  | x1 :: x2 :: x3 :: x4 :: rest, _ =>
    exfalso
    have h5 : x1 = 'p' ∧ x2 = 'o' ∧ x3 = 'o' ∧ x4 = 'l' ∧ rest = [] ∧ b₁ = [] := by
      simpa using heq
    exact hb h5.2.2.2.2.2

theorem last_of_suffix {a₂ a : Str} (h : a₂ <:+ a) (hne : a₂ ≠ []) :
    a.getLast? = a₂.getLast? := by
  obtain ⟨s, rfl⟩ := h
  exact List.getLast?_append_of_ne_nil s hne

theorem head_of_pref {b₁ b : Str} (h : b₁ <+: b) (hne : b₁ ≠ []) :
    b.head? = b₁.head? := by
  obtain ⟨t, rfl⟩ := h
  cases b₁ with
  | nil => exact absurd rfl hne
  | cons x xs => rfl

/-- `"pool"` cannot sit inside `a ++ b` when it sits in neither part and the
last character of `a` rules out a junction-spanning occurrence. -/
theorem notPool_append_left {a b : Str} (ha : ¬ poolStr <:+: a) (hb : ¬ poolStr <:+: b)
    (h1 : a.getLast? ≠ some 'p') (h2 : a.getLast? ≠ some 'o') :
    ¬ poolStr <:+: a ++ b := by
  intro h
  rcases infix_split h with h' | h' | ⟨a₂, b₁, hna, hnb, hsa, hpb, heq⟩
  · exact ha h'
  · exact hb h'
  · have hp := (pool_split hna hnb heq.symm).1
    have hl := last_of_suffix hsa hna
    rcases hp with hp | hp
    · exact h1 (hl.trans hp)
    · exact h2 (hl.trans hp)

/-- `"pool"` cannot sit inside `a ++ b` when it sits in neither part and the
first character of `b` rules out a junction-spanning occurrence. -/
theorem notPool_append_right {a b : Str} (ha : ¬ poolStr <:+: a) (hb : ¬ poolStr <:+: b)
    (h1 : b.head? ≠ some 'o') (h2 : b.head? ≠ some 'l') :
    ¬ poolStr <:+: a ++ b := by
  intro h
  rcases infix_split h with h' | h' | ⟨a₂, b₁, hna, hnb, hsa, hpb, heq⟩
  · exact ha h'
  · exact hb h'
  · have hp := (pool_split hna hnb heq.symm).2
    have hl := head_of_pref hpb hnb
    rcases hp with hp | hp
    · exact h1 (hl.trans hp)
    · exact h2 (hl.trans hp)

theorem strip_contained (s : Str) : strip s <:+: s := by
  have h1 : s.dropWhile Char.isWhitespace <:+ s := List.dropWhile_suffix _
  have h2 : strip s <+: s.dropWhile Char.isWhitespace := by
    unfold strip
    conv_rhs => rw [← List.reverse_reverse (s.dropWhile Char.isWhitespace)]
    exact List.reverse_prefix.mpr (List.dropWhile_suffix _)
  exact h2.isInfix.trans h1.isInfix

/-- The `", "`-join of segments each free of `"pool"` (case-insensitively) is
itself free of `"pool"` (case-insensitively). -/
theorem notPool_joinCS {l : List Str} (h : ∀ s ∈ l, ¬ poolStr <:+: lower s) :
    ¬ poolStr <:+: lower (joinCS l) := by
  induction l with
  | nil =>
    intro hc
    obtain ⟨s, t, hst⟩ := hc
    rw [show lower (joinCS []) = [] from rfl] at hst
    simp [poolStr_chars] at hst
  | cons s rest ih =>
    cases rest with
    | nil => simpa [joinCS] using h s (by simp)
    | cons t rest' =>
      have hs := h s (by simp)
      have hrest : ¬ poolStr <:+: lower (joinCS (t :: rest')) :=
        ih (fun x hx => h x (by simp [hx]))
      have hj : joinCS (s :: t :: rest') = s ++ ((", ").toList ++ joinCS (t :: rest')) := by
        simp [joinCS]
      have hcomma : lower ((", ").toList) = (", ").toList := by decide
      rw [hj, lower_append]
      refine notPool_append_right hs ?_ ?_ ?_
      · rw [lower_append, hcomma]
        refine notPool_append_left (by decide) hrest (by decide) (by decide)
      · rw [lower_append, hcomma]
        simp only [show ((", ").toList : Str) = ',' :: ' ' :: [] from rfl,
          List.cons_append, List.head?_cons]
        decide
      · rw [lower_append, hcomma]
        simp only [show ((", ").toList : Str) = ',' :: ' ' :: [] from rfl,
          List.cons_append, List.head?_cons]
        decide

theorem head?_append_left {a b : Str} (c : Char) (h : a.head? = some c) :
    (a ++ b).head? = some c := by
  cases a with
  | nil => simp at h
  | cons x xs => simpa using h

theorem getLast?_append_right {a b : Str} (c : Char) (h : b.getLast? = some c) :
    (a ++ b).getLast? = some c := by
  have hb : b ≠ [] := by intro hb; rw [hb] at h; simp at h
  rw [List.getLast?_append_of_ne_nil _ hb]
  exact h

/-- Every segment kept by the Front Exterior selection filter is free of
`"pool"` case-insensitively. -/
theorem frontSelections_no_pool (sel : Str) :
    ¬ poolStr <:+: lower (frontSelections sel) := by
  unfold frontSelections
  apply notPool_joinCS
  intro x hx
  have hmem := List.of_mem_filter hx
  intro hc
  rw [← containsSub_iff] at hc
  rw [hc] at hmem
  simp at hmem

/-- C1 (amended): for subcategory `"Front Exterior"`, the options channel can
never contribute the substring `"pool"` to the prompt, and whenever the
description left after `build_prompt`'s single-pass removal of exact-lowercase
`"pool"` occurrences is itself free of `"pool"` case-insensitively, the whole
returned prompt is free of `"pool"` case-insensitively.  (The removal misses
occurrences of `"pool"` in any other letter case, which is the correction
recorded by `C1_pool_exclusion_cex`.) -/
theorem C1_pool_exclusion
    (opts : List (Str × Option Str)) (desc : Str) (plan : Bool)
    (h : ¬ poolStr <:+: lower (frontDescription desc)) :
    ¬ poolStr <:+: lower (build_prompt feStr opts desc plan) := by
  have hD : ¬ poolStr <:+: lower
      (if strip (frontDescription desc) = [] then
        ("Client unspecified style; pick tasteful contemporary.").toList
      else strip (frontDescription desc)) := by
    by_cases hd : strip (frontDescription desc) = []
    · rw [if_pos hd]; decide
    · rw [if_neg hd]
      intro hc
      exact h (hc.trans ((strip_contained (frontDescription desc)).map Char.toLower))
  have hS : ¬ poolStr <:+: lower
      (if frontSelections (joinCS (selectionSegments opts)) = [] then
        ("designer’s choice with cohesive style").toList
      else frontSelections (joinCS (selectionSegments opts))) := by
    by_cases hs : frontSelections (joinCS (selectionSegments opts)) = []
    · rw [if_pos hs]; decide
    · rw [if_neg hs]
      exact frontSelections_no_pool _
  unfold build_prompt
  simp only [eq_self_iff_true, if_true]
  rw [lower_append]
  refine notPool_append_right ?_ (by decide) (by decide) (by decide)
  rw [lower_append]
  refine notPool_append_left ?_ hS
    (by rw [lower_append, getLast?_append_right ' ' (by decide)]; decide)
    (by rw [lower_append, getLast?_append_right ' ' (by decide)]; decide)
  rw [lower_append]
  refine notPool_append_right ?_ (by decide) (by decide) (by decide)
  rw [lower_append]
  refine notPool_append_left ?_ hD
    (by rw [lower_append, getLast?_append_right ' ' (by decide)]; decide)
    (by rw [lower_append, getLast?_append_right ' ' (by decide)]; decide)
  rw [lower_append]
  refine notPool_append_right ?_ (by decide) (by decide) (by decide)
  cases plan with
  | false =>
    simp only [Bool.false_eq_true, if_false, List.append_nil]
    decide
  | true =>
    simp only [if_true]
    decide

/-- C1 counterexample: for subcategory `"Front Exterior"` with empty options
and the description `"POOL"` — which contains `"pool"` case-insensitively —
the returned prompt still contains `"pool"` case-insensitively, refuting the
claim that such a prompt never does (the code's `replace("pool", "")` removes
only exact-lowercase occurrences). -/
theorem C1_pool_exclusion_cex :
    containsSub poolStr (lower (("POOL").toList)) = true ∧
      poolStr <:+: lower (build_prompt feStr [] (("POOL").toList) false) := by
  constructor
  · decide
  · decide

/-- Witness for `C1_pool_exclusion` at a concrete input: a description whose
`"pool"` occurrences are all exact lowercase is fully stripped by
`frontDescription`, so the built prompt is pool-free. -/
theorem C1_pool_exclusion_witness :
    ¬ poolStr <:+: lower (build_prompt feStr
      [(("Vehicle").toList, some (("SUV").toList))] (("yard with a pool").toList) false) :=
  C1_pool_exclusion _ _ _ (by decide)

/-- C5 (amended): `build_prompt`'s selections filter drops exactly the options
whose value is absent, empty, or exactly the string `"None"` (case-sensitive
comparison): every segment of the selections list comes from a kept pair whose
value is non-empty and differs from `"None"`, and prepending a pair with an
absent, empty or `"None"` value leaves the segment list unchanged.  Values
such as `"No"`, `"no"` or `"none"` are not sentinels and are kept (see
`C5_sentinel_filter_cex`). -/
theorem C5_sentinel_filter :
    (∀ (opts : List (Str × Option Str)) (s : Str), s ∈ selectionSegments opts →
      ∃ k v, (k, some v) ∈ opts ∧ v ≠ [] ∧ v ≠ noneStr ∧
        s = k ++ (": ").toList ++ v) ∧
    (∀ (k : Str) (v : Option Str) (opts : List (Str × Option Str)),
      (v = none ∨ v = some [] ∨ v = some noneStr) →
      selectionSegments ((k, v) :: opts) = selectionSegments opts) := by
  constructor
  · intro opts s hs
    unfold selectionSegments at hs
    obtain ⟨kv, hkv, rfl⟩ := List.mem_map.mp hs
    have hmem := List.mem_filter.mp hkv
    obtain ⟨k, v⟩ := kv
    cases v with
    | none => simp [optTruthy] at hmem
    | some v =>
      have ht := hmem.2
      by_cases h1 : v = []
      · simp [optTruthy, h1] at ht
      · by_cases h2 : v = noneStr
        · simp [optTruthy, h1, h2] at ht
        · exact ⟨k, v, hmem.1, h1, h2, by simp⟩
  · intro k v opts hv
    unfold selectionSegments
    rcases hv with rfl | rfl | rfl <;> simp [optTruthy]

/-- C5 counterexample: with options `{"Fireplace": "No"}` — whose value `"No"`
is one of the claim's sentinels — the prompt built for `"Living Room"`
contains the pair `"Fireplace: No"`, refuting the claim that no
sentinel-valued `"Name: Value"` pair ever appears in the prompt. -/
theorem C5_sentinel_filter_cex :
    containsSub (("Fireplace: No").toList)
      (build_prompt (("Living Room").toList)
        [(("Fireplace").toList, some (("No").toList))] [] false) = true := by
  decide

/-- Witness for `C5_sentinel_filter`: a `"Backsplash": "None"` pair contributes
no segment. -/
theorem C5_sentinel_filter_witness :
    selectionSegments [(("Backsplash").toList, some noneStr)] = selectionSegments [] :=
  C5_sentinel_filter.2 _ _ _ (Or.inr (Or.inr rfl))

/-- C4: in the paired exterior generation flow, if image generation or
artifact persistence fails for either of the two renderings, the request
reports failure (a `danger` flash and a redirect to `index`, never the
success outcome) and no repository row is inserted — the repository is
returned unchanged, so a partial pair is never recorded. -/
theorem C4_paired_exterior_failure (description : Str) (plan : Bool)
    (frontRes backRes : Except Str Str) (uid : Nat) (db : List Rendering)
    (now : Str)
    (h : (∃ e, frontRes = Except.error e) ∨ (∃ e, backRes = Except.error e)) :
    (generate description plan frontRes backRes uid db now).db = db ∧
    (generate description plan frontRes backRes uid db now).flash_cat = sl "danger" ∧
    (generate description plan frontRes backRes uid db now).redirect_to = sl "index" ∧
    (generate description plan frontRes backRes uid db now).flash_cat ≠ sl "success" := by
  have hds : (sl "danger" : Str) ≠ sl "success" := by decide
  rcases h with ⟨e, rfl⟩ | ⟨e, rfl⟩
  · exact ⟨rfl, rfl, rfl, hds⟩
  · cases frontRes with
    | error e2 => exact ⟨rfl, rfl, rfl, hds⟩
    | ok p => exact ⟨rfl, rfl, rfl, hds⟩

/-- Witness for `C4_paired_exterior_failure`: front succeeds, back fails — no
row is inserted. -/
theorem C4_paired_exterior_failure_witness :
    (generate [] false (Except.ok (sl "renderings/a.png"))
      (Except.error (sl "OpenAI image generation failed")) 1 [] []).db = [] :=
  (C4_paired_exterior_failure [] false _ _ 1 [] [] (Or.inr ⟨_, rfl⟩)).1

/-- C6 counterexample: posting `/generate_room` with subcategory `"Garage"` —
which is neither a catalog key nor one of the two exterior subcategories —
succeeds when generation succeeds: a row is inserted and no error is
returned, refuting the claim that such an insert fails with a
`ValidationError` and inserts nothing. -/
theorem C6_subcategory_validation_cex :
    (sl "Garage" ∉ catalogKeys ∧ sl "Garage" ≠ feStr ∧ sl "Garage" ≠ beStr) ∧
    (generate_room (sl "Garage") [] false [] (Except.ok (sl "renderings/g.png"))
      1 [] []).error = none ∧
    (generate_room (sl "Garage") [] false [] (Except.ok (sl "renderings/g.png"))
      1 [] []).db ≠ [] := by
  refine ⟨by decide, rfl, ?_⟩
  decide

/-- C6 (amended): inserting a rendering record performs no subcategory
validation at all — for any subcategory outside the catalog and distinct from
the two exterior subcategories, a successful generation still inserts exactly
one row carrying that subcategory (with empty collected options) and reports
no error. -/
theorem C6_subcategory_validation (subcat description : Str) (plan : Bool)
    (form : List (Str × Str)) (uid : Nat) (db : List Rendering) (now p : Str)
    (_h1 : subcat ∉ catalogKeys) (_h2 : subcat ≠ feStr) (_h3 : subcat ≠ beStr) :
    (generate_room subcat description plan form (Except.ok p) uid db now).error = none ∧
    ∃ r, (generate_room subcat description plan form (Except.ok p) uid db now).db
        = db ++ [r] ∧ r.subcategory = subcat := by
  exact ⟨rfl, _, rfl, rfl⟩

/-- Witness for `C6_subcategory_validation` at subcategory `"Garage"`. -/
theorem C6_subcategory_validation_witness :
    (generate_room (sl "Garage") [] false [] (Except.ok (sl "renderings/g.png"))
      1 [] []).error = none :=
  (C6_subcategory_validation (sl "Garage") [] false [] 1 [] [] (sl "renderings/g.png")
    (by decide) (by decide) (by decide)).1

/-- C8: the modify operation never mutates the content of any existing row —
its result is either the unchanged repository (lookup failure or generation
failure, never with a 200 status) or the unchanged repository with exactly one
new row appended (and that is what every 200 response returns), so every
stored field of the original rendering survives any modify request. -/
theorem C8_modify_inserts_only (rid uid : Nat) (description : Str)
    (form : List (Str × Str)) (genRes : Except Str Str) (db : List Rendering)
    (now : Str) :
    ((modify_rendering rid uid description form genRes db now).status = 200 →
      ∃ r, (modify_rendering rid uid description form genRes db now).db = db ++ [r]) ∧
    ((modify_rendering rid uid description form genRes db now).status ≠ 200 →
      (modify_rendering rid uid description form genRes db now).db = db) ∧
    (∀ r ∈ db, r ∈ (modify_rendering rid uid description form genRes db now).db) := by
  unfold modify_rendering
  cases hf : findRendering db rid uid with
  | none =>
    exact ⟨fun hs => absurd (show (404 : Nat) = 200 from hs) (by decide),
      fun _ => rfl, fun r hr => hr⟩
  | some row =>
    cases genRes with
    | error e =>
      exact ⟨fun hs => absurd (show (500 : Nat) = 200 from hs) (by decide),
        fun _ => rfl, fun r hr => hr⟩
    | ok rel_path =>
      refine ⟨fun _ => ⟨_, rfl⟩, fun hs => absurd rfl hs, fun r hr => ?_⟩
      simp [List.mem_append, hr]

/-- Witness for `C8_modify_inserts_only`: a successful modify of an existing
row appends one row and leaves the original in place. -/
theorem C8_modify_inserts_only_witness :
    ∃ r, (modify_rendering 1 1 [] [] (Except.ok (sl "renderings/m.png"))
      [⟨1, some 1, sl "ROOM", sl "Kitchen", [], [], sl "renderings/a.png", 0, 0, []⟩]
      []).db
      = [⟨1, some 1, sl "ROOM", sl "Kitchen", [], [], sl "renderings/a.png", 0, 0, []⟩]
        ++ [r] :=
  (C8_modify_inserts_only 1 1 [] [] (Except.ok (sl "renderings/m.png"))
    [⟨1, some 1, sl "ROOM", sl "Kitchen", [], [], sl "renderings/a.png", 0, 0, []⟩]
    []).1 (by decide)

/-- The slideshow's item count (rows with `favorited = 1` for the caller)
equals the gallery's favorited count (truthiness test) whenever every
`favorited` value is the schema's 0 or 1. -/
theorem slideshow_count_eq (uid : Nat) (db : List Rendering)
    (h01 : ∀ r ∈ db, r.favorited = 0 ∨ r.favorited = 1) :
    (db.filter (fun r => decide (r.favorited = 1 ∧ r.user_id = some uid))).length
      = gallery_fav_count uid db := by
  unfold gallery_fav_count
  rw [List.filter_filter]
  apply congrArg List.length
  apply List.filter_congr
  intro r hr
  rcases h01 r hr with h0 | h1
  · simp [h0]
  · simp [h1]

/-- C7: when every favorited flag holds the schema's 0 or 1, the slideshow is
available if and only if the caller has at least two favorited renderings:
the gallery offers the slideshow link iff the count is ≥ 2, a direct
`/slideshow` request shows the view iff the count is ≥ 2, and with exactly one
favorited rendering the gallery does not offer it and the direct request
redirects back to the gallery. -/
theorem C7_slideshow_gating (uid : Nat) (db : List Rendering)
    (h01 : ∀ r ∈ db, r.favorited = 0 ∨ r.favorited = 1) :
    (gallery_show_slideshow uid db = true ↔ 2 ≤ gallery_fav_count uid db) ∧
    ((∃ items, slideshow uid db = SlideshowResult.view items) ↔
      2 ≤ gallery_fav_count uid db) ∧
    (gallery_fav_count uid db = 1 →
      gallery_show_slideshow uid db = false ∧
      slideshow uid db = SlideshowResult.redirectGallery) := by
  have hc := slideshow_count_eq uid db h01
  refine ⟨?_, ?_, ?_⟩
  · unfold gallery_show_slideshow
    exact decide_eq_true_iff
  · simp only [slideshow]
    constructor
    · rintro ⟨items, hit⟩
      by_cases hlen : (db.filter
          (fun r => decide (r.favorited = 1 ∧ r.user_id = some uid))).length < 2
      · rw [if_pos hlen] at hit; cases hit
      · rw [hc] at hlen; omega
    · intro h2
      rw [if_neg (by rw [hc]; omega)]
      exact ⟨_, rfl⟩
  · intro h1
    refine ⟨?_, ?_⟩
    · unfold gallery_show_slideshow
      rw [h1]
      decide
    · simp only [slideshow]
      rw [if_pos (by rw [hc, h1]; omega)]

/-- Witness for `C7_slideshow_gating`: one favorited rendering does not unlock
the slideshow, and the direct request redirects. -/
theorem C7_slideshow_gating_witness :
    gallery_show_slideshow 1
      [⟨1, some 1, sl "ROOM", sl "Kitchen", [], [], sl "renderings/a.png", 0, 1, []⟩]
      = false ∧
    slideshow 1
      [⟨1, some 1, sl "ROOM", sl "Kitchen", [], [], sl "renderings/a.png", 0, 1, []⟩]
      = SlideshowResult.redirectGallery :=
  (C7_slideshow_gating 1 _ (by decide)).2.2 (by decide)

/-- C9 (amended): bulk delete removes exactly the requested renderings within
the caller's ownership scope — rows outside the requested-and-owned scope all
survive untouched, and every surviving row was already present — but the count
reported back to the caller is the number of requested ids, which can exceed
the number of rows actually deleted (see `C9_bulk_delete_cex`). -/
theorem C9_bulk_delete (uid : Nat) (ids : List Nat) (db : List Rendering) :
    (∀ r ∈ db, ¬(r.id ∈ ids ∧ r.user_id = some uid) →
      r ∈ (bulk_action (sl "delete") ids none true uid db).db) ∧
    (∀ r ∈ (bulk_action (sl "delete") ids none true uid db).db,
      r ∈ db ∧ ¬(r.id ∈ ids ∧ r.user_id = some uid)) ∧
    (bulk_action (sl "delete") ids none true uid db).message
      = some (BAMsg.deleted ids.length) ∧
    (bulk_action (sl "delete") ids none true uid db).status = 200 := by
  simp only [bulk_action, eq_self_iff_true, if_true]
  refine ⟨?_, ?_, by trivial, by trivial⟩
  · intro r hr hn
    simp only [List.mem_filter, Bool.not_eq_true', decide_eq_false_iff_not]
    exact ⟨hr, hn⟩
  · intro r hr
    rw [List.mem_filter, Bool.not_eq_true', decide_eq_false_iff_not] at hr
    exact hr

/-- C9 counterexample: a bulk delete requesting id 1 while the repository's
only row with that id belongs to another user deletes zero rows yet reports
`Deleted 1 rendering(s).` — the reported count is the number of requested
ids, not the number of rows actually deleted. -/
theorem C9_bulk_delete_cex :
    (bulk_action (sl "delete") [1] none true 1
      [⟨1, some 2, sl "ROOM", sl "Kitchen", [], [], sl "renderings/b.png", 0, 0, []⟩]).db
      = [⟨1, some 2, sl "ROOM", sl "Kitchen", [], [], sl "renderings/b.png", 0, 0, []⟩] ∧
    (bulk_action (sl "delete") [1] none true 1
      [⟨1, some 2, sl "ROOM", sl "Kitchen", [], [], sl "renderings/b.png", 0, 0, []⟩]).message
      = some (BAMsg.deleted 1) ∧ (1 : Nat) ≠ 0 := by
  exact ⟨by decide, rfl, by decide⟩

/-- Witness for `C9_bulk_delete`: an owned requested row is removed and the
out-of-scope row survives. -/
theorem C9_bulk_delete_witness :
    2 ∉ ([1] : List Nat) ∧
    (⟨2, some 1, sl "ROOM", sl "Kitchen", [], [], sl "renderings/c.png", 0, 0, []⟩ : Rendering)
      ∈ (bulk_action (sl "delete") [1] none true 1
        [⟨1, some 1, sl "ROOM", sl "Kitchen", [], [], sl "renderings/b.png", 0, 0, []⟩,
         ⟨2, some 1, sl "ROOM", sl "Kitchen", [], [], sl "renderings/c.png", 0, 0, []⟩]).db :=
  ⟨by decide, (C9_bulk_delete 1 [1] _).1 _ (by decide) (by decide)⟩

/-! ### The toggle semantics of the like/favorite bulk action -/

theorem fieldSet_id (f : FieldKind) (v : Int) (r : Rendering) :
    (fieldSet f v r).id = r.id := by cases f <;> rfl

theorem fieldSet_user (f : FieldKind) (v : Int) (r : Rendering) :
    (fieldSet f v r).user_id = r.user_id := by cases f <;> rfl

theorem fieldGet_set (f : FieldKind) (v : Int) (r : Rendering) :
    fieldGet f (fieldSet f v r) = v := by cases f <;> rfl

theorem fieldSet_set (f : FieldKind) (v w : Int) (r : Rendering) :
    fieldSet f v (fieldSet f w r) = fieldSet f v r := by cases f <;> rfl

theorem fieldSet_get (f : FieldKind) (r : Rendering) :
    fieldSet f (fieldGet f r) r = r := by cases f <;> rfl

/-- `executemany` over per-row UPDATE statements is a pointwise map: each row
of the table receives every statement in order. -/
theorem applyUpdates_map (f : FieldKind) (db : List Rendering)
    (us : List (Int × Nat)) :
    applyUpdates f db us = db.map (fun r => us.foldl (updRow f) r) := by
  induction us generalizing db with
  | nil =>
    show db = db.map (fun r => r)
    rw [List.map_id']
  | cons u us ih =>
    show applyUpdates f (db.map (fun r => updRow f r u)) us = _
    rw [ih, List.map_map]
    rfl

theorem foldl_updRow_skip (f : FieldKind) (r : Rendering) (us : List (Int × Nat))
    (h : ∀ vu ∈ us, r.id ≠ vu.2) : us.foldl (updRow f) r = r := by
  induction us with
  | nil => rfl
  | cons u us ih =>
    rw [List.foldl_cons, show updRow f r u = r from if_neg (h u (by simp))]
    exact ih (fun vu hv => h vu (by simp [hv]))

theorem foldl_updRow_hit (f : FieldKind) (r : Rendering) (v : Int)
    (us1 us2 : List (Int × Nat))
    (h1 : ∀ vu ∈ us1, r.id ≠ vu.2) (h2 : ∀ vu ∈ us2, r.id ≠ vu.2) :
    (us1 ++ (v, r.id) :: us2).foldl (updRow f) r = fieldSet f v r := by
  rw [List.foldl_append, foldl_updRow_skip f r us1 h1, List.foldl_cons,
    show updRow f r (v, r.id) = fieldSet f v r from if_pos rfl]
  apply foldl_updRow_skip
  intro vu hv
  rw [fieldSet_id]
  exact h2 vu hv

/-- Under the primary-key uniqueness of row ids, the SELECT-then-executemany
of the like/favorite branch toggles the flag of exactly the caller's
requested rows (pointwise map over the table). -/
theorem bulk_toggle_map (f : FieldKind) (uid : Nat) (ids : List Nat)
    (db : List Rendering) (hn : (db.map (fun r => r.id)).Nodup) :
    applyUpdates f db
      ((scopedRows uid ids db).map (fun r => (1 - fieldGet f r, r.id)))
      = db.map (fun r =>
          if r.id ∈ ids ∧ r.user_id = some uid then
            fieldSet f (1 - fieldGet f r) r
          else r) := by
  rw [applyUpdates_map]
  apply List.map_congr_left
  intro r hr
  by_cases hP : r.id ∈ ids ∧ r.user_id = some uid
  · rw [if_pos hP]
    have hrs : r ∈ scopedRows uid ids db := by
      unfold scopedRows
      rw [List.mem_filter]
      exact ⟨hr, by simpa using hP⟩
    obtain ⟨s1, s2, hsel⟩ := List.append_of_mem hrs
    have hsub : (scopedRows uid ids db).Sublist db := List.filter_sublist db
    have hns : ((scopedRows uid ids db).map (fun x => x.id)).Nodup :=
      hn.sublist (hsub.map _)
    rw [hsel, List.map_append, List.map_cons] at hns
    have hnd := List.nodup_append.mp hns
    have hx1 : ∀ vu ∈ s1.map (fun x => (1 - fieldGet f x, x.id)), r.id ≠ vu.2 := by
      intro vu hv
      obtain ⟨s, hs, rfl⟩ := List.mem_map.mp hv
      intro heq
      have heq' : r.id = s.id := heq
      exact hnd.2.2 (List.mem_map.mpr ⟨s, hs, rfl⟩)
        (by rw [← heq']; exact List.mem_cons_self _ _)
    have hx2 : ∀ vu ∈ s2.map (fun x => (1 - fieldGet f x, x.id)), r.id ≠ vu.2 := by
      intro vu hv
      obtain ⟨s, hs, rfl⟩ := List.mem_map.mp hv
      intro heq
      have heq' : r.id = s.id := heq
      exact (List.nodup_cons.mp hnd.2.1).1
        (by rw [heq']; exact List.mem_map.mpr ⟨s, hs, rfl⟩)
    rw [hsel, List.map_append, List.map_cons]
    exact foldl_updRow_hit f r _ _ _ hx1 hx2
  · rw [if_neg hP]
    apply foldl_updRow_skip
    intro vu hv
    obtain ⟨s, hs, rfl⟩ := List.mem_map.mp hv
    intro heq
    have heq' : r.id = s.id := heq
    have hsdb := (List.mem_filter.mp hs).1
    have hsr : s = r := List.inj_on_of_nodup_map hn hsdb hr heq'.symm
    subst hsr
    have hcond := (List.mem_filter.mp hs).2
    simp only [decide_eq_true_eq] at hcond
    exact hP hcond

theorem toggle_map_ids (f : FieldKind) (uid : Nat) (ids : List Nat)
    (db : List Rendering) :
    ((db.map (fun r => if r.id ∈ ids ∧ r.user_id = some uid then
        fieldSet f (1 - fieldGet f r) r else r)).map (fun r => r.id))
      = db.map (fun r => r.id) := by
  rw [List.map_map]
  apply List.map_congr_left
  intro r _
  by_cases hP : r.id ∈ ids ∧ r.user_id = some uid
  · simp only [Function.comp_apply, if_pos hP, fieldSet_id]
  · simp only [Function.comp_apply, if_neg hP]

/-- Toggling the same scope twice restores every row (`1 - (1 - x) = x`). -/
theorem toggle_twice (f : FieldKind) (uid : Nat) (ids : List Nat)
    (db : List Rendering) :
    ((db.map (fun r => if r.id ∈ ids ∧ r.user_id = some uid then
        fieldSet f (1 - fieldGet f r) r else r)).map
      (fun r => if r.id ∈ ids ∧ r.user_id = some uid then
        fieldSet f (1 - fieldGet f r) r else r)) = db := by
  rw [List.map_map]
  have hpt : ∀ r ∈ db, ((fun r : Rendering =>
      if r.id ∈ ids ∧ r.user_id = some uid then
        fieldSet f (1 - fieldGet f r) r else r) ∘
      (fun r : Rendering => if r.id ∈ ids ∧ r.user_id = some uid then
        fieldSet f (1 - fieldGet f r) r else r)) r = id r := by
    intro r _
    by_cases hP : r.id ∈ ids ∧ r.user_id = some uid
    · simp only [Function.comp_apply, if_pos hP, id]
      have hP2 : (fieldSet f (1 - fieldGet f r) r).id ∈ ids ∧
          (fieldSet f (1 - fieldGet f r) r).user_id = some uid := by
        rw [fieldSet_id, fieldSet_user]; exact hP
      rw [if_pos hP2, fieldGet_set, fieldSet_set,
        show (1 - (1 - fieldGet f r)) = fieldGet f r from by omega]
      exact fieldSet_get f r
    · simp only [Function.comp_apply, if_neg hP, id]
  rw [List.map_congr_left hpt, List.map_id]

/-- C10: one application of the bulk like (resp. favorite) action flips the
liked (resp. favorited) flag of exactly the selected renderings owned by the
caller — in particular it turns an already-set flag off — leaving every other
row and every other field unchanged, and applying the same action twice in a
row over the same id set restores the repository to its original state
(primary-key uniqueness of row ids assumed). -/
theorem C10_like_favorite_toggle (action : Str) (uid : Nat) (ids : List Nat)
    (db : List Rendering)
    (ha : action = sl "like" ∨ action = sl "favorite")
    (hn : (db.map (fun r => r.id)).Nodup) :
    (bulk_action action ids none true uid db).db
      = db.map (fun r => if r.id ∈ ids ∧ r.user_id = some uid then
          fieldSet (toggledField action)
            (1 - fieldGet (toggledField action) r) r else r) ∧
    (bulk_action action ids none true uid
        (bulk_action action ids none true uid db).db).db = db := by
  have hbranch : ∀ d : List Rendering,
      (bulk_action action ids none true uid d).db
      = applyUpdates (toggledField action) d
          ((scopedRows uid ids d).map
            (fun r => (1 - fieldGet (toggledField action) r, r.id))) := by
    intro d
    rcases ha with rfl | rfl
    · unfold bulk_action
      rw [if_neg (by decide), if_pos (Or.inl rfl)]
    · unfold bulk_action
      rw [if_neg (by decide), if_pos (Or.inr rfl)]
  have h1 := hbranch db
  rw [bulk_toggle_map _ uid ids db hn] at h1
  refine ⟨h1, ?_⟩
  rw [h1, hbranch _,
    bulk_toggle_map _ uid ids _ (by rw [toggle_map_ids]; exact hn),
    toggle_twice]

/-- Witness for `C10_like_favorite_toggle`: liking an already-liked rendering
twice restores the original repository. -/
theorem C10_like_favorite_toggle_witness :
    (bulk_action (sl "like") [1] none true 1
      (bulk_action (sl "like") [1] none true 1
        [⟨1, some 1, sl "ROOM", sl "Kitchen", [], [], sl "renderings/a.png",
          1, 0, []⟩]).db).db
      = [⟨1, some 1, sl "ROOM", sl "Kitchen", [], [], sl "renderings/a.png",
          1, 0, []⟩] :=
  (C10_like_favorite_toggle (sl "like") 1 [1] _ (Or.inl rfl) (by decide)).2

/-- C3 counterexample: on `app.py` the bulk favorite action toggles the flag
rather than setting it, so it is not idempotent: one application to a
caller-owned, not-yet-favorited rendering yields favorited = 1, but the second
application flips it back to favorited = 0, a different final state. -/
theorem C3_favorite_idempotent_cex :
    (bulk_action (sl "favorite") [1] none true 1
        [⟨1, some 1, sl "ROOM", sl "Kitchen", [], [], sl "renderings/a.png",
          0, 0, []⟩]).db
      = [⟨1, some 1, sl "ROOM", sl "Kitchen", [], [], sl "renderings/a.png",
          0, 1, []⟩] ∧
    (bulk_action (sl "favorite") [1] none true 1
      (bulk_action (sl "favorite") [1] none true 1
        [⟨1, some 1, sl "ROOM", sl "Kitchen", [], [], sl "renderings/a.png",
          0, 0, []⟩]).db).db
      ≠ (bulk_action (sl "favorite") [1] none true 1
        [⟨1, some 1, sl "ROOM", sl "Kitchen", [], [], sl "renderings/a.png",
          0, 0, []⟩]).db := by
  exact ⟨by decide, by decide⟩

theorem setField2_fields (field : Str) (v : Int) (r : Rendering2) :
    (setField2 field v r).project_id = r.project_id ∧
    (setField2 field v r).room_key = r.room_key ∧
    (setField2 field v r).id = r.id := by
  unfold setField2
  split <;> exact ⟨rfl, rfl, rfl⟩

theorem setField2_idem (field : Str) (v : Int) (r : Rendering2) :
    setField2 field v (setField2 field v r) = setField2 field v r := by
  unfold setField2
  split <;> rfl

theorem setField2_fav (r : Rendering2) :
    (setField2 (sl "favorite") 1 r).favorite = 1 := by
  unfold setField2
  rw [if_neg (by decide)]

/-- C3 (amended): in the revision
`architect_3_d_home_modeler_flask_app_app.py`, whose bulk favorite action
sets `favorite = 1` (rather than toggling as `app.py` does, see
`C3_favorite_idempotent_cex`), applying the action twice in a row over the
same id set yields exactly the state of applying it once: every targeted
rendering in the project/room scope ends with `favorite = 1`, and every row
outside that scope is returned unchanged. -/
theorem C3_favorite_idempotent (pid : Nat) (rk : Str) (ids : List Nat)
    (recipient : Str) (emailOk : Bool) (db : List Rendering2)
    (hne : ids ≠ []) :
    (bulk_action2 (sl "favorite") pid rk ids recipient emailOk
        (bulk_action2 (sl "favorite") pid rk ids recipient emailOk db).db).db
      = (bulk_action2 (sl "favorite") pid rk ids recipient emailOk db).db ∧
    (∀ r ∈ (bulk_action2 (sl "favorite") pid rk ids recipient emailOk db).db,
      scoped2 pid rk ids r → r.favorite = 1) ∧
    (∀ r ∈ (bulk_action2 (sl "favorite") pid rk ids recipient emailOk db).db,
      ¬ scoped2 pid rk ids r → r ∈ db) := by
  have hb : ∀ d : List Rendering2,
      (bulk_action2 (sl "favorite") pid rk ids recipient emailOk d).db
      = d.map (fun r => if scoped2 pid rk ids r then
          setField2 (sl "favorite") 1 r else r) := by
    intro d
    unfold bulk_action2
    rw [if_neg hne, if_neg (by decide), if_pos (Or.inr rfl),
      show (if sl "favorite" = sl "like" then sl "liked" else sl "favorite")
        = sl "favorite" from by decide]
  have hscope : ∀ r : Rendering2, scoped2 pid rk ids (setField2 (sl "favorite") 1 r)
      ↔ scoped2 pid rk ids r := by
    intro r
    obtain ⟨f1, f2, f3⟩ := setField2_fields (sl "favorite") 1 r
    unfold scoped2
    rw [f1, f2, f3]
  refine ⟨?_, ?_, ?_⟩
  · rw [hb db, hb _, List.map_map]
    apply List.map_congr_left
    intro r _
    by_cases hs : scoped2 pid rk ids r
    · simp only [Function.comp_apply, if_pos hs, if_pos ((hscope r).mpr hs)]
      exact setField2_idem _ _ _
    · simp only [Function.comp_apply, if_neg hs]
  · intro r' hr'
    rw [hb db] at hr'
    obtain ⟨r, hr, rfl⟩ := List.mem_map.mp hr'
    intro hsc
    by_cases hs : scoped2 pid rk ids r
    · rw [if_pos hs]
      exact setField2_fav r
    · rw [if_neg hs] at hsc
      exact absurd hsc hs
  · intro r' hr'
    rw [hb db] at hr'
    obtain ⟨r, hr, rfl⟩ := List.mem_map.mp hr'
    intro hnsc
    by_cases hs : scoped2 pid rk ids r
    · exfalso
      apply hnsc
      rw [if_pos hs]
      exact (hscope r).mpr hs
    · rw [if_neg hs]
      exact hr

/-- Witness for `C3_favorite_idempotent`: favoriting the same rendering twice
equals favoriting it once. -/
theorem C3_favorite_idempotent_witness :
    (bulk_action2 (sl "favorite") 1 (sl "kitchen") [1] [] true
      (bulk_action2 (sl "favorite") 1 (sl "kitchen") [1] [] true
        [⟨1, 1, some 1, sl "kitchen", sl "Kitchen", [], sl "a.jpg", 0, 0, []⟩]).db).db
      = (bulk_action2 (sl "favorite") 1 (sl "kitchen") [1] [] true
        [⟨1, 1, some 1, sl "kitchen", sl "Kitchen", [], sl "a.jpg", 0, 0, []⟩]).db :=
  (C3_favorite_idempotent 1 (sl "kitchen") [1] [] true _ (by decide)).1

/-- C2: in both revisions, the bulk email and download actions over a
non-empty requested id set operate only on the liked subset of the
caller-scoped requested rows.  If that subset is empty, the action fails with
the explicit only-liked error and has no side effect — nothing is handed to
the email transport, no download urls / zip are produced, and the repository
is unchanged.  Otherwise the email transport (respectively the download/zip
response) receives exactly the liked subset's artifact paths, and the
repository is still unchanged. -/
theorem C2_liked_only_export
    (uid : Nat) (ids : List Nat) (addr : Str) (eok : Bool) (db : List Rendering)
    (pid : Nat) (rk : Str) (ids2 : List Nat) (rcp : Str) (eok2 : Bool)
    (db2 : List Rendering2)
    (_hids : ids ≠ []) (haddr : addr ≠ []) (hids2 : ids2 ≠ []) (hrcp : rcp ≠ []) :
    (likedPaths uid ids db = [] →
      (bulk_action (sl "email") ids (some addr) eok uid db).error
          = some BAErr.onlyLikedEmail ∧
      (bulk_action (sl "email") ids (some addr) eok uid db).status = 400 ∧
      (bulk_action (sl "email") ids (some addr) eok uid db).emailed = none ∧
      (bulk_action (sl "email") ids (some addr) eok uid db).db = db) ∧
    (likedPaths uid ids db ≠ [] →
      (bulk_action (sl "email") ids (some addr) eok uid db).emailed
          = some (addr, likedPaths uid ids db) ∧
      (bulk_action (sl "email") ids (some addr) eok uid db).db = db) ∧
    (likedPaths uid ids db = [] →
      (bulk_action (sl "download") ids none eok uid db).error
          = some BAErr.onlyLikedDownload ∧
      (bulk_action (sl "download") ids none eok uid db).status = 400 ∧
      (bulk_action (sl "download") ids none eok uid db).download_urls = none ∧
      (bulk_action (sl "download") ids none eok uid db).db = db) ∧
    (likedPaths uid ids db ≠ [] →
      (bulk_action (sl "download") ids none eok uid db).download_urls
          = some ((likedPaths uid ids db).map urlForStatic) ∧
      (bulk_action (sl "download") ids none eok uid db).db = db) ∧
    (likedFiles2 pid rk ids2 db2 = [] →
      (bulk_action2 (sl "email") pid rk ids2 rcp eok2 db2).flash
          = some B2Flash.onlyLikedEmail ∧
      (bulk_action2 (sl "email") pid rk ids2 rcp eok2 db2).emailed = none ∧
      (bulk_action2 (sl "email") pid rk ids2 rcp eok2 db2).zipped = none ∧
      (bulk_action2 (sl "email") pid rk ids2 rcp eok2 db2).db = db2) ∧
    (likedFiles2 pid rk ids2 db2 ≠ [] →
      (bulk_action2 (sl "email") pid rk ids2 rcp eok2 db2).emailed
          = some (rcp, likedFiles2 pid rk ids2 db2) ∧
      (bulk_action2 (sl "email") pid rk ids2 rcp eok2 db2).db = db2) ∧
    (likedFiles2 pid rk ids2 db2 = [] →
      (bulk_action2 (sl "download") pid rk ids2 rcp eok2 db2).flash
          = some B2Flash.onlyLikedDownload ∧
      (bulk_action2 (sl "download") pid rk ids2 rcp eok2 db2).zipped = none ∧
      (bulk_action2 (sl "download") pid rk ids2 rcp eok2 db2).db = db2) ∧
    (likedFiles2 pid rk ids2 db2 ≠ [] →
      (bulk_action2 (sl "download") pid rk ids2 rcp eok2 db2).zipped
          = some (likedFiles2 pid rk ids2 db2) ∧
      (bulk_action2 (sl "download") pid rk ids2 rcp eok2 db2).db = db2) := by
  have hAe : bulk_action (sl "email") ids (some addr) eok uid db
      = (if likedPaths uid ids db = [] then
          { db := db, status := 400, error := some BAErr.onlyLikedEmail }
        else if eok then
          { db := db, status := 200,
            message := some (BAMsg.emailedN (likedPaths uid ids db).length addr),
            emailed := some (addr, likedPaths uid ids db) }
        else
          { db := db, status := 500, error := some BAErr.emailFailed,
            emailed := some (addr, likedPaths uid ids db) }) := by
    unfold bulk_action
    rw [if_neg (by decide), if_neg (by decide), if_pos rfl]
    change (if addr = [] then _ else _) = _
    rw [if_neg haddr]
  have hAd : bulk_action (sl "download") ids none eok uid db
      = (if likedPaths uid ids db = [] then
          { db := db, status := 400, error := some BAErr.onlyLikedDownload }
        else
          { db := db, status := 200,
            download_urls := some ((likedPaths uid ids db).map urlForStatic) }) := by
    unfold bulk_action
    rw [if_neg (by decide), if_neg (by decide), if_neg (by decide), if_pos rfl]
  have hBe : bulk_action2 (sl "email") pid rk ids2 rcp eok2 db2
      = (if likedFiles2 pid rk ids2 db2 = [] then
          { db := db2, flash := some B2Flash.onlyLikedEmail }
        else if eok2 then
          { db := db2, flash := some B2Flash.emailSent,
            emailed := some (rcp, likedFiles2 pid rk ids2 db2) }
        else
          { db := db2, flash := some B2Flash.emailFailed,
            emailed := some (rcp, likedFiles2 pid rk ids2 db2) }) := by
    unfold bulk_action2
    rw [if_neg hids2, if_neg (by decide), if_neg (by decide), if_neg (by decide),
      if_pos rfl, if_neg hrcp]
  have hBd : bulk_action2 (sl "download") pid rk ids2 rcp eok2 db2
      = (if likedFiles2 pid rk ids2 db2 = [] then
          { db := db2, flash := some B2Flash.onlyLikedDownload }
        else { db := db2, zipped := some (likedFiles2 pid rk ids2 db2) }) := by
    unfold bulk_action2
    rw [if_neg hids2, if_neg (by decide), if_neg (by decide), if_pos rfl]
  refine ⟨?_, ?_, ?_, ?_, ?_, ?_, ?_, ?_⟩
  · intro h; rw [hAe, if_pos h]; exact ⟨rfl, rfl, rfl, rfl⟩
  · intro h; rw [hAe, if_neg h]; cases eok <;> exact ⟨rfl, rfl⟩
  · intro h; rw [hAd, if_pos h]; exact ⟨rfl, rfl, rfl, rfl⟩
  · intro h; rw [hAd, if_neg h]; exact ⟨rfl, rfl⟩
  · intro h; rw [hBe, if_pos h]; exact ⟨rfl, rfl, rfl, rfl⟩
  · intro h; rw [hBe, if_neg h]; cases eok2 <;> exact ⟨rfl, rfl⟩
  · intro h; rw [hBd, if_pos h]; exact ⟨rfl, rfl, rfl⟩
  · intro h; rw [hBd, if_neg h]; exact ⟨rfl, rfl⟩

/-- Witness for `C2_liked_only_export`: requesting an email of a selected
rendering that is not liked fails with the only-liked error, sends nothing and
leaves the repository unchanged. -/
theorem C2_liked_only_export_witness :
    (bulk_action (sl "email") [1] (some (sl "a@b.c")) true 1
        [⟨1, some 1, sl "ROOM", sl "Kitchen", [], [], sl "renderings/a.png",
          0, 0, []⟩]).error = some BAErr.onlyLikedEmail ∧
    (bulk_action (sl "email") [1] (some (sl "a@b.c")) true 1
        [⟨1, some 1, sl "ROOM", sl "Kitchen", [], [], sl "renderings/a.png",
          0, 0, []⟩]).status = 400 ∧
    (bulk_action (sl "email") [1] (some (sl "a@b.c")) true 1
        [⟨1, some 1, sl "ROOM", sl "Kitchen", [], [], sl "renderings/a.png",
          0, 0, []⟩]).emailed = none ∧
    (bulk_action (sl "email") [1] (some (sl "a@b.c")) true 1
        [⟨1, some 1, sl "ROOM", sl "Kitchen", [], [], sl "renderings/a.png",
          0, 0, []⟩]).db
      = [⟨1, some 1, sl "ROOM", sl "Kitchen", [], [], sl "renderings/a.png",
          0, 0, []⟩] :=
  (C2_liked_only_export 1 [1] (sl "a@b.c") true _ 1 (sl "kitchen") [1]
    (sl "a@b.c") true [] (by decide) (by decide) (by decide) (by decide)).1
    (by decide)
